import Mathlib

set_option maxRecDepth 20000

/-!
Shallow embedding of the feature-derivation and hypothesis-testing pipeline
of `src/data_analysis.py` (class `SpotifyDataAnalyzer`), together with proofs
settling the claims about it.

Modelling conventions:
* a pandas column is a list of cells; a missing cell (`NaN` in a float column,
  `NaN`/`None` in an object column) is `Option.none`;
* floating-point values are modelled by `ℚ`; every numeric literal appearing
  in the code (0.4, 0.7, 0.3, 60000, thresholds 0.05) is exactly representable
  as a double and all comparisons performed by the code on such values agree
  with the rational ones, so the model is order-faithful on the inputs the
  claims are about;
* the category labels are the exact strings of the source
  (`'Низкая'`, `'Средняя'`, `'Высокая'`, i.e. Low / Medium / High);
* statistical routines imported from scipy (`pearsonr`, `f_oneway`, `kstest`)
  compute irrational quantities and live outside this repository; each is
  abstracted as an explicit deterministic function parameter, and the claims
  about the repository's own decision logic are proved for every such function.
-/

namespace SpotifyDataAnalyzer

/-- A column of the dataframe: homogeneous dtype, cells may be absent (NaN). -/
inductive Column where
  | numeric (vals : List (Option ℚ))
  | categorical (vals : List (Option String))
  deriving DecidableEq, Repr

/-- The dataframe `self.data`: an ordered association list of named columns. -/
abbrev Dataset := List (String × Column)

/-- Column lookup, `self.data[name]` guarded by `name in self.data.columns`
(column names are unique in a dataframe, so first-match lookup is exact). -/
def getCol : Dataset → String → Option Column
  | [], _ => none
  | p :: d, name => if p.1 = name then some p.2 else getCol d name

/-- Column assignment `self.data[name] = c`: pandas overwrites an existing
column in place and otherwise appends a new column at the end. -/
def setCol : Dataset → String → Column → Dataset
  | [], name, c => [(name, c)]
  | p :: d, name, c =>
      if p.1 = name then (name, c) :: d else p :: setCol d name c

/-! ### Missing-value resolution (`prepare_data`, step 1) -/

/-- Number of absent cells of a column (`self.data.isnull().sum()` per column). -/
def countAbsent (c : Column) : Nat :=
  match c with
  | .numeric vs => vs.countP (·.isNone)
  | .categorical vs => vs.countP (·.isNone)

/-- Whether a column still holds an absent cell. -/
def hasAbsent (c : Column) : Bool :=
  match c with
  | .numeric vs => vs.any (·.isNone)
  | .categorical vs => vs.any (·.isNone)

/-- The present (non-NaN) values of a numeric column. -/
def presentVals (vs : List (Option ℚ)) : List ℚ :=
  vs.filterMap id

/-- The middle element (odd length) or the mean of the two middle elements
(even length) of an already-sorted list; `NaN` (`none`) when empty. -/
def medianOfSorted (s : List ℚ) : Option ℚ :=
  if s.length = 0 then none
  else if s.length % 2 = 1 then s.get? (s.length / 2)
  else do
    let a ← s.get? (s.length / 2 - 1)
    let b ← s.get? (s.length / 2)
    pure ((a + b) / 2)

/-- pandas `Series.median()` over the present values: sort ascending, middle
element for odd length, mean of the two middle elements for even length,
`NaN` (here `none`) for an empty list of present values. -/
def median (xs : List ℚ) : Option ℚ :=
  medianOfSorted (xs.insertionSort (· ≤ ·))

/-- `self.data[col].fillna(self.data[col].median())` on a numeric column.
When every cell is absent the median is itself `NaN`, and filling with `NaN`
leaves the column unchanged. -/
def fillNumeric (vs : List (Option ℚ)) : List (Option ℚ) :=
  match median (presentVals vs) with
  | some m => vs.map (fun x => some (x.getD m))
  | none => vs

/-- One column of the missing-value pass: the code only touches columns that
appear in `missing` (absent count `> 0`); numeric columns are filled with
their median, object columns with the sentinel `'Unknown'`. -/
def resolveColumn (c : Column) : Column :=
  if countAbsent c = 0 then c
  else
    match c with
    | .numeric vs => .numeric (fillNumeric vs)
    | .categorical vs => .categorical (vs.map (fun x => some (x.getD "Unknown")))

/-- The whole missing-value pass of `prepare_data` (lines 129–153). -/
def handleMissing (d : Dataset) : Dataset :=
  d.map (fun p => (p.1, resolveColumn p.2))

/-! ### Feature derivation (`prepare_data`, step 2) -/

/-- `duration_ms / 60000`, `NaN` propagating. -/
def durationMin (x : Option ℚ) : Option ℚ :=
  x.map (· / 60000)

/-- `pd.cut(x, bins=[0, 0.4, 0.7, 1], labels=['Низкая','Средняя','Высокая'])`
with the default `right=True`, `include_lowest=False`: intervals `(0, 0.4]`,
`(0.4, 0.7]`, `(0.7, 1]`; values outside `(0, 1]` (in particular exactly `0`)
receive `NaN`. -/
def danceabilityCategory (x : ℚ) : Option String :=
  if 0 < x ∧ x ≤ 2/5 then some "Низкая"
  else if 2/5 < x ∧ x ≤ 7/10 then some "Средняя"
  else if 7/10 < x ∧ x ≤ 1 then some "Высокая"
  else none

/-- `np.select` condition 1: `self.data['energy'] < 0.3`; comparisons against
`NaN` are false. -/
def energyCond1 (x : Option ℚ) : Bool :=
  match x with
  | some v => decide (v < 3/10)
  | none => false

/-- `np.select` condition 2: `(energy >= 0.3) & (energy < 0.7)`. -/
def energyCond2 (x : Option ℚ) : Bool :=
  match x with
  | some v => decide (3/10 ≤ v) && decide (v < 7/10)
  | none => false

/-- `np.select` condition 3: `energy >= 0.7`. -/
def energyCond3 (x : Option ℚ) : Bool :=
  match x with
  | some v => decide (7/10 ≤ v)
  | none => false

/-- `np.select(conditions, choices, default='Средняя')`: first true condition
wins, the default label is used only when no condition matches. -/
def energyCategory (x : Option ℚ) : String :=
  if energyCond1 x then "Низкая"
  else if energyCond2 x then "Средняя"
  else if energyCond3 x then "Высокая"
  else "Средняя"

/-- Whether `np.select` fell through to its `default` branch for this cell. -/
def energyDefaultUsed (x : Option ℚ) : Bool :=
  !(energyCond1 x || energyCond2 x || energyCond3 x)

/-- `⌊q⌋` for a rational, computed from the normalised numerator/denominator. -/
def qfloor (q : ℚ) : ℤ :=
  Int.fdiv q.num q.den

/-- numpy/pandas `quantile` with the default linear interpolation, as used by
`pd.qcut`: on the sorted present values `s` of length `n`, the `q`-quantile
sits at position `h = (n-1)·q` and interpolates linearly between `s[⌊h⌋]` and
`s[⌊h⌋+1]`. The empty case is dead code here (guarded by `nunique ≥ 3`). -/
def quantile (xs : List ℚ) (q : ℚ) : ℚ :=
  let s := xs.insertionSort (· ≤ ·)
  let n := s.length
  if n = 0 then 0
  else
    let h : ℚ := ((n : ℚ) - 1) * q
    let i : ℤ := qfloor h
    let lo := s.getD i.toNat 0
    let hi := s.getD (i.toNat + 1) lo
    lo + (h - (i : ℚ)) * (hi - lo)

/-- The bin edges `pd.qcut(x, q=3)` computes: the 0, 1/3, 2/3 and 1 quantiles
of the column's present values. -/
def qcutEdges (xs : List ℚ) : List ℚ :=
  [quantile xs 0, quantile xs (1/3), quantile xs (2/3), quantile xs 1]

/-- `pd.qcut` raises `ValueError: Bin edges must be unique` (its default
`duplicates='raise'`) exactly when the computed edges contain a duplicate. -/
def qcutFails (xs : List ℚ) : Bool :=
  (qcutEdges xs).dedup.length < (qcutEdges xs).length

/-- Band assignment of a successful `pd.qcut` with inner edges `e1 < e2`:
qcut nudges the lowest edge down so the minimum is included, so on the
column's own values the bins are `[min, e1]`, `(e1, e2]`, `(e2, max]`. -/
def qcutBand (e1 e2 : ℚ) (v : ℚ) : String :=
  if v ≤ e1 then "Низкая"
  else if v ≤ e2 then "Средняя"
  else "Высокая"

def listMin (xs : List ℚ) : ℚ :=
  match xs with
  | [] => 0
  | a :: l => l.foldl min a

def listMax (xs : List ℚ) : ℚ :=
  match xs with
  | [] => 0
  | a :: l => l.foldl max a

/-- `pd.cut(x, bins=3)` (the `< 3` distinct-values fallback): three equal-width
bins over `[min, max]`, right-closed, with the lowest edge nudged down so the
minimum is included. When `min = max` pandas widens the range symmetrically by
`0.001·|min|` (or `0.001`), which lands every data value (all equal to `min`)
in the middle bin. Values outside `[min, max]` cannot occur for the column's
own cells. -/
def cutBand3 (mn mx v : ℚ) : Option String :=
  if mn = mx then some "Средняя"
  else if v < mn ∨ mx < v then none
  else if v ≤ mn + (mx - mn) / 3 then some "Низкая"
  else if v ≤ mn + 2 * ((mx - mn) / 3) then some "Средняя"
  else some "Высокая"

/-- The `popularity_category` derivation (lines 168–190): with `≥ 3` distinct
present values use `pd.qcut(q=3)`; a `qcut` failure is caught at line 189 and
the feature is *skipped* (`none`), not re-derived; with `< 3` distinct values
use `pd.cut(bins=3)` instead. An empty/all-absent column makes `pd.cut` raise
(degenerate `NaN` edges), which the same `except` catches — also `none`. -/
def popularityCategory (vs : List (Option ℚ)) : Option (List (Option String)) :=
  if 3 ≤ (presentVals vs).dedup.length then
    if qcutFails (presentVals vs) then none
    else
      some (vs.map (fun x => x.map (qcutBand (quantile (presentVals vs) (1/3))
        (quantile (presentVals vs) (2/3)))))
  else if (presentVals vs).isEmpty then none
  else some (vs.map (fun x => x.bind (cutBand3 (listMin (presentVals vs))
    (listMax (presentVals vs)))))

/-- Lines 162–165: `self.data['duration_min'] = self.data['duration_ms'] / 60000`. -/
def deriveDuration (d : Dataset) : Dataset :=
  match getCol d "duration_ms" with
  | some (.numeric vs) => setCol d "duration_min" (.numeric (vs.map durationMin))
  | _ => d

/-- The `try` body of lines 169–190: write the banded column if the binning
succeeded, leave the dataframe unchanged if the caught exception skipped it. -/
def popularityFeature (d : Dataset) (vs : List (Option ℚ)) : Dataset :=
  match popularityCategory vs with
  | some bands => setCol d "popularity_category" (.categorical bands)
  | none => d

/-- Lines 168–190: create `popularity_category` unless the binning fails. -/
def derivePopularity (d : Dataset) : Dataset :=
  match getCol d "popularity" with
  | some (.numeric vs) => popularityFeature d vs
  | _ => d

/-- Lines 193–203: create `danceability_category` via `pd.cut`. -/
def deriveDanceability (d : Dataset) : Dataset :=
  match getCol d "danceability" with
  | some (.numeric vs) =>
      setCol d "danceability_category"
        (.categorical (vs.map (fun x => x.bind danceabilityCategory)))
  | _ => d

/-- Lines 206–215: create `energy_category` via `np.select`. -/
def deriveEnergy (d : Dataset) : Dataset :=
  match getCol d "energy" with
  | some (.numeric vs) =>
      setCol d "energy_category"
        (.categorical (vs.map (fun x => some (energyCategory x))))
  | _ => d

/-- Step 2 of `prepare_data` (lines 156–221): the four derivations in source
order. -/
def createFeatures (d : Dataset) : Dataset :=
  deriveEnergy (deriveDanceability (derivePopularity (deriveDuration d)))

/-- `prepare_data`: missing-value resolution followed by feature derivation. -/
def prepareData (d : Dataset) : Dataset :=
  createFeatures (handleMissing d)

/-! ### Hypothesis tests (`test_hypotheses`, `perform_posthoc_analysis`) -/

inductive Verdict where
  | accepted
  | rejected
  deriving DecidableEq, Repr

/-- Outcome of a single statistical test: evaluated with a statistic, a
p-value and a verdict, or skipped with the printed narrative. -/
inductive TestOutcome where
  | evaluated (stat p : ℚ) (v : Verdict)
  | skipped (msg : String)
  deriving DecidableEq, Repr

/-- Hypothesis 1 (lines 341–370): Pearson correlation of danceability vs
energy. `scipy.stats.pearsonr` computes the irrational pair (coefficient,
two-sided p-value) outside this repository; it is abstracted as the function
parameter `pearson`, and the repository's own decision logic is proved for
every such function. Requires `len(self.data) ≥ 3` (= the column length). -/
def testCorrelation (pearson : List ℚ → List ℚ → ℚ × ℚ)
    (dance energy : List ℚ) : TestOutcome :=
  if 3 ≤ dance.length then
    if (pearson dance energy).2 < 5/100 then
      if 0 < (pearson dance energy).1 then
        .evaluated (pearson dance energy).1 (pearson dance energy).2 .accepted
      else .evaluated (pearson dance energy).1 (pearson dance energy).2 .rejected
    else .evaluated (pearson dance energy).1 (pearson dance energy).2 .rejected
  else .skipped "⚠️ Недостаточно данных для теста корреляции"

/-- A row of the (genre, popularity) projection used by hypothesis 2. -/
abbrev GenreRow := String × ℚ

def genreColumn (rows : List GenreRow) : List String :=
  rows.map Prod.fst

/-- `self.data['genre'].value_counts()`: the distinct genres with their
occurrence counts, sorted by count descending (stable; the order among equal
counts is not relied upon by any claim). -/
def valueCounts (rows : List GenreRow) : List (String × Nat) :=
  ((genreColumn rows).dedup.map (fun g => (g, (genreColumn rows).count g))).insertionSort
    (fun a b => b.2 ≤ a.2)

/-- `genre_counts[genre_counts >= 10].index.tolist()[:5]` (line 380). -/
def validGenres (rows : List GenreRow) : List String :=
  (((valueCounts rows).filter (fun p => 10 ≤ p.2)).map Prod.fst).take 5

/-- `self.data[self.data['genre'] == g]['popularity']`. -/
def genreGroup (rows : List GenreRow) (g : String) : List ℚ :=
  (rows.filter (fun r => r.1 == g)).map Prod.snd

/-- The list of popularity series handed to `stats.f_oneway` (lines 383–384). -/
def genreGroups (rows : List GenreRow) : List (List ℚ) :=
  (validGenres rows).map (genreGroup rows)

/-- pandas `Series.mean()`. (Dead for the empty series: every group compared
or summarised comes from a genre that occurs in the data.) -/
def listMean (xs : List ℚ) : ℚ :=
  xs.sum / xs.length

/-- The ddof-1 sample variance underlying pandas `Series.std()`; `std` is its
(irrational) square root, so the variance determines it monotonically. A
single observation has `std = NaN` (`none`). -/
def sampleVariance (xs : List ℚ) : Option ℚ :=
  if xs.length ≤ 1 then none
  else some ((xs.map (fun x => (x - listMean xs) ^ 2)).sum / ((xs.length : ℚ) - 1))

/-- The per-genre `{mean, std, count}` record built at lines 471–477; the
`std` component is represented by the sample variance it is the square root
of. -/
structure GroupSummary where
  mean : ℚ
  var : Option ℚ
  count : Nat
  deriving DecidableEq, Repr

def groupSummary (xs : List ℚ) : GroupSummary :=
  ⟨listMean xs, sampleVariance xs, xs.length⟩

/-- `perform_posthoc_analysis` (lines 464–487): one Group Summary per genre,
reported in the order of `sorted(genre_means.items(), key=mean, reverse=True)`
— a stable sort by descending mean. -/
def performPosthocAnalysis (rows : List GenreRow) (genres : List String) :
    List (String × GroupSummary) :=
  (genres.map (fun g => (g, groupSummary (genreGroup rows g)))).insertionSort
    (fun a b => b.2.mean ≤ a.2.mean)

/-- Outcome of hypothesis 2, recording which genres were compared and the
post-hoc report when it was invoked. -/
inductive GroupTestOutcome where
  | evaluated (genres : List String) (f p : ℚ) (accepted : Bool)
      (posthoc : Option (List (String × GroupSummary)))
  | skipped (msg : String)
  deriving DecidableEq, Repr

/-- Hypothesis 2 (lines 375–412): one-way ANOVA of popularity across genres.
`scipy.stats.f_oneway` is abstracted as the parameter `anova` (F-statistic,
p-value). The post-hoc analysis is invoked exactly in the `p < 0.05` branch
(line 399). -/
def testGroupMeans (anova : List (List ℚ) → ℚ × ℚ) (rows : List GenreRow) :
    GroupTestOutcome :=
  if 2 ≤ (genreColumn rows).dedup.length then
    if 2 ≤ (validGenres rows).length then
      if (anova (genreGroups rows)).2 < 5/100 then
        .evaluated (validGenres rows) (anova (genreGroups rows)).1
          (anova (genreGroups rows)).2 true
          (some (performPosthocAnalysis rows (validGenres rows)))
      else
        .evaluated (validGenres rows) (anova (genreGroups rows)).1
          (anova (genreGroups rows)).2 false none
    else .skipped "⚠️ Недостаточно жанров с данными для анализа"
  else .skipped "⚠️ В данных меньше 2 жанров для сравнения"

/-- Line 420–423: for more than 5000 rows, a fixed-seed
(`random_state=42`) sample of exactly 5000 rows; otherwise the full column.
The pandas sampler is deterministic given the seed; it is abstracted as the
parameter `sampler` applied to the fixed seed `42`. -/
def normalitySample (sampler : Nat → List ℚ → List ℚ) (pop : List ℚ) : List ℚ :=
  if 5000 < pop.length then sampler 42 pop else pop

/-- Hypothesis 3 (lines 417–446): Kolmogorov–Smirnov goodness of fit of the
(standardised) popularity sample against the standard normal.
`(sample - mean)/std` and `scipy.stats.kstest(·, 'norm')` involve irrational
arithmetic (square roots, the normal CDF) and live outside this repository;
the composite `sample ↦ (statistic, p-value)` is abstracted as the parameter
`kstestNorm`. Decision (lines 434–440): accepted iff `p > 0.05`. -/
def testNormality (sampler : Nat → List ℚ → List ℚ)
    (kstestNorm : List ℚ → ℚ × ℚ) (pop : List ℚ) : TestOutcome :=
  if 5/100 < (kstestNorm (normalitySample sampler pop)).2 then
    .evaluated (kstestNorm (normalitySample sampler pop)).1
      (kstestNorm (normalitySample sampler pop)).2 .accepted
  else
    .evaluated (kstestNorm (normalitySample sampler pop)).1
      (kstestNorm (normalitySample sampler pop)).2 .rejected

/-! ### Frame lemmas for column lookup and assignment -/

/-- Assigning column `n` does not change any other column `m`. -/
theorem getCol_setCol_ne (d : Dataset) (n m : String) (c : Column) (h : m ≠ n) :
    getCol (setCol d n c) m = getCol d m := by
  induction d with
  | nil => simp [setCol, getCol, Ne.symm h]
  | cons a t ih =>
    by_cases ha : a.1 = n
    · simp [setCol, getCol, ha, Ne.symm h]
    · by_cases hm : a.1 = m
      · simp [setCol, getCol, ha, hm, h]
      · simp [setCol, getCol, ha, hm, ih]

/-- Assigning column `n` makes lookup of `n` return the assigned value. -/
theorem getCol_setCol_self (d : Dataset) (n : String) (c : Column) :
    getCol (setCol d n c) n = some c := by
  induction d with
  | nil => simp [setCol, getCol]
  | cons a t ih =>
    by_cases ha : a.1 = n
    · simp [setCol, getCol, ha]
    · simp [setCol, getCol, ha, ih]

theorem getCol_deriveDuration_ne (d : Dataset) (m : String) (h : m ≠ "duration_min") :
    getCol (deriveDuration d) m = getCol d m := by
  unfold deriveDuration
  cases hc : getCol d "duration_ms" with
  | none => rfl
  | some c =>
    cases c with
    | numeric vs => exact getCol_setCol_ne d _ m _ h
    | categorical vs => rfl

theorem getCol_derivePopularity_ne (d : Dataset) (m : String)
    (h : m ≠ "popularity_category") :
    getCol (derivePopularity d) m = getCol d m := by
  unfold derivePopularity
  cases hc : getCol d "popularity" with
  | none => rfl
  | some c =>
    cases c with
    | numeric vs =>
      show getCol (popularityFeature d vs) m = getCol d m
      unfold popularityFeature
      cases hb : popularityCategory vs with
      | none => rfl
      | some bands => exact getCol_setCol_ne d _ m _ h
    | categorical vs => rfl

theorem getCol_deriveDanceability_ne (d : Dataset) (m : String)
    (h : m ≠ "danceability_category") :
    getCol (deriveDanceability d) m = getCol d m := by
  unfold deriveDanceability
  cases hc : getCol d "danceability" with
  | none => rfl
  | some c =>
    cases c with
    | numeric vs => exact getCol_setCol_ne d _ m _ h
    | categorical vs => rfl

theorem getCol_deriveEnergy_ne (d : Dataset) (m : String) (h : m ≠ "energy_category") :
    getCol (deriveEnergy d) m = getCol d m := by
  unfold deriveEnergy
  cases hc : getCol d "energy" with
  | none => rfl
  | some c =>
    cases c with
    | numeric vs => exact getCol_setCol_ne d _ m _ h
    | categorical vs => rfl

/-- The danceability step, traced through the whole derivation pass: the
band column of the output is the `pd.cut` image of the input column. -/
theorem createFeatures_danceability (d : Dataset) (vs : List (Option ℚ))
    (hd : getCol d "danceability" = some (.numeric vs)) :
    getCol (createFeatures d) "danceability_category"
      = some (.categorical (vs.map (fun x => x.bind danceabilityCategory))) := by
  unfold createFeatures
  rw [getCol_deriveEnergy_ne _ _ (by decide)]
  have hd2 : getCol (derivePopularity (deriveDuration d)) "danceability"
      = some (.numeric vs) := by
    rw [getCol_derivePopularity_ne _ _ (by decide),
      getCol_deriveDuration_ne _ _ (by decide)]
    exact hd
  unfold deriveDanceability
  rw [hd2]
  exact getCol_setCol_self _ _ _

/-! ### Claims -/

/-- C8: for every real (non-absent) energy value, exactly one of the three
`np.select` conditions `< 0.3`, `[0.3, 0.7)`, `≥ 0.7` holds, so every such
value gets exactly one energy band and the safety default is unreachable. -/
theorem energy_conditions_exhaustive (v : ℚ) :
    [energyCond1 (some v), energyCond2 (some v), energyCond3 (some v)].count true = 1 ∧
    energyDefaultUsed (some v) = false := by
  unfold energyDefaultUsed energyCond1 energyCond2 energyCond3
  rcases lt_or_le v (3/10) with h1 | h1
  · have h2 : ¬(3/10 ≤ v) := not_le.mpr h1
    have h3 : ¬(7/10 ≤ v) := by intro h; linarith
    simp [h1, h2, h3, List.count_cons]
  · rcases lt_or_le v (7/10) with h2 | h2
    · have h1' : ¬(v < 3/10) := not_lt.mpr h1
      have h3 : ¬(7/10 ≤ v) := not_le.mpr h2
      simp [h1', h1, h2, h3, List.count_cons]
    · have h1' : ¬(v < 3/10) := by intro h; linarith
      have h2' : ¬(v < 7/10) := not_lt.mpr h2
      simp [h1', h2, h2', List.count_cons]

/-- C1 (counterexample): the code's `pd.cut` bins are right-inclusive, so the
boundary value `0.40` falls in `(0, 0.4]` and is labelled Low (`Низкая`), not
Medium (`Средняя`) as the claim's worked example states. -/
theorem danceability_band_at_boundary_cex :
    danceabilityCategory (2/5) = some "Низкая" ∧
    danceabilityCategory (2/5) ≠ some "Средняя" := by
  constructor
  · with_unfolding_all decide
  · with_unfolding_all decide

/-- C1 (amended): with bins right-inclusive, `0.39 → Low`, `0.40 → Low`,
`0.70 → Medium`, `0.71 → High`; and for every dataset with a danceability
column the derivation pass writes exactly the `pd.cut` image of that column
as `danceability_category`. -/
theorem danceability_band_edges :
    danceabilityCategory (39/100) = some "Низкая" ∧
    danceabilityCategory (2/5) = some "Низкая" ∧
    danceabilityCategory (7/10) = some "Средняя" ∧
    danceabilityCategory (71/100) = some "Высокая" ∧
    ∀ (d : Dataset) (vs : List (Option ℚ)),
      getCol d "danceability" = some (Column.numeric vs) →
      getCol (createFeatures d) "danceability_category"
        = some (Column.categorical (vs.map (fun x => x.bind danceabilityCategory))) := by
  refine ⟨by with_unfolding_all decide, by with_unfolding_all decide, by with_unfolding_all decide, by with_unfolding_all decide, ?_⟩
  intro d vs hd
  exact createFeatures_danceability d vs hd

/-- C1 witness: the amended theorem applied to a concrete one-column dataset
holding the four boundary values. -/
theorem danceability_band_edges_witness :
    getCol (createFeatures [("danceability",
        Column.numeric [some (39/100), some (2/5), some (7/10), some (71/100)])])
      "danceability_category"
      = some (Column.categorical
          [some "Низкая", some "Низкая", some "Средняя", some "Высокая"]) := by
  have h := danceability_band_edges.2.2.2.2
    [("danceability", Column.numeric [some (39/100), some (2/5), some (7/10), some (71/100)])]
    [some (39/100), some (2/5), some (7/10), some (71/100)] (by with_unfolding_all decide)
  exact h.trans (by with_unfolding_all decide)

/-- C9: a danceability value of exactly `0` (or any value outside `(0, 1]`)
is outside every `pd.cut` bin, so its derived band cell is absent. -/
theorem danceability_zero_unbanded :
    danceabilityCategory 0 = none ∧
    (∀ x : ℚ, x ≤ 0 ∨ 1 < x → danceabilityCategory x = none) ∧
    ∀ (d : Dataset) (vs : List (Option ℚ)) (i : ℕ),
      getCol d "danceability" = some (Column.numeric vs) →
      vs.get? i = some (some 0) →
      ∃ bs, getCol (createFeatures d) "danceability_category"
          = some (Column.categorical bs) ∧ bs.get? i = some none := by
  refine ⟨by with_unfolding_all decide, ?_, ?_⟩
  · intro x hx
    unfold danceabilityCategory
    rcases hx with hx | hx <;>
      rw [if_neg (by rintro ⟨a, b⟩; linarith), if_neg (by rintro ⟨a, b⟩; linarith),
        if_neg (by rintro ⟨a, b⟩; linarith)]
  · intro d vs i hd hi
    refine ⟨vs.map (fun x => x.bind danceabilityCategory),
      createFeatures_danceability d vs hd, ?_⟩
    rw [List.get?_map, hi]
    with_unfolding_all rfl

/-- C9 witness: the theorem applied to a value below the lowest edge and to a
concrete one-row dataset whose danceability is exactly `0`. -/
theorem danceability_zero_unbanded_witness :
    danceabilityCategory (-1) = none ∧
    ∃ bs, getCol (createFeatures [("danceability", Column.numeric [some 0])])
        "danceability_category" = some (Column.categorical bs) ∧ bs.get? 0 = some none := by
  refine ⟨danceability_zero_unbanded.2.1 (-1) (Or.inl (by norm_num)), ?_⟩
  exact danceability_zero_unbanded.2.2
    [("danceability", Column.numeric [some 0])] [some 0] 0 (by with_unfolding_all decide) (by with_unfolding_all decide)

/-- C10 (counterexample): a dataset that already contains a column named
`duration_min` has it overwritten by the derivation pass, so the pass does
not preserve every pre-existing column. -/
theorem derivation_overwrites_cex :
    getCol [("duration_ms", Column.numeric [some 60000]),
        ("duration_min", Column.numeric [some 999])] "duration_min"
      = some (Column.numeric [some 999]) ∧
    getCol (createFeatures [("duration_ms", Column.numeric [some 60000]),
        ("duration_min", Column.numeric [some 999])]) "duration_min"
      = some (Column.numeric [some 1]) ∧
    Column.numeric [some (999 : ℚ)] ≠ Column.numeric [some 1] := by
  refine ⟨by with_unfolding_all decide, ?_, by with_unfolding_all decide⟩
  with_unfolding_all decide

/-- C10 (amended): the derivation pass writes only the four derived column
names; every column whose name is not among them is preserved exactly (and
in particular never removed). -/
theorem derivation_frame (d : Dataset) (m : String)
    (h : m ∉ ["duration_min", "popularity_category",
        "danceability_category", "energy_category"]) :
    getCol (createFeatures d) m = getCol d m := by
  simp only [List.mem_cons, List.not_mem_nil, or_false, not_or] at h
  obtain ⟨h1, h2, h3, h4⟩ := h
  unfold createFeatures
  rw [getCol_deriveEnergy_ne _ _ h4, getCol_deriveDanceability_ne _ _ h3,
    getCol_derivePopularity_ne _ _ h2, getCol_deriveDuration_ne _ _ h1]

/-- C10 witness: the frame theorem applied to a concrete dataset and the
column name `popularity`. -/
theorem derivation_frame_witness :
    getCol (createFeatures [("popularity", Column.numeric [some 7])]) "popularity"
      = getCol [("popularity", Column.numeric [some 7])] "popularity" :=
  derivation_frame [("popularity", Column.numeric [some 7])] "popularity" (by with_unfolding_all decide)

/-- C2 (counterexample): a popularity column with 3 distinct values whose
3-quantile edges collapse (`[0,0,0,0,0,0,0,50,100]` has edges `0,0,0,100`):
`pd.qcut` raises, the `except` at line 189 merely prints a warning, and the
`popularity_category` column is not produced at all — there is no equal-width
fallback on quantile failure. -/
theorem popularity_qcut_failure_cex :
    3 ≤ (presentVals [some 0, some 0, some 0, some 0, some 0, some 0, some 0,
        some 50, some 100]).dedup.length ∧
    qcutFails (presentVals [some 0, some 0, some 0, some 0, some 0, some 0, some 0,
        some 50, some 100]) = true ∧
    popularityCategory [some 0, some 0, some 0, some 0, some 0, some 0, some 0,
        some 50, some 100] = none ∧
    getCol (createFeatures [("popularity", Column.numeric [some 0, some 0, some 0,
        some 0, some 0, some 0, some 0, some 50, some 100])]) "popularity_category"
      = none := by
  exact ⟨by with_unfolding_all decide, by with_unfolding_all decide,
    by with_unfolding_all decide, by with_unfolding_all decide⟩

/-- C2 (amended): when the column has `≥ 3` distinct present values and the
3-quantile partition fails, the feature is skipped (the dataframe keeps
whatever it had under `popularity_category`); the equal-width fallback is used
only when there are fewer than 3 distinct values, and then the band column is
produced. -/
theorem popularity_band_fallback (vs : List (Option ℚ)) (d : Dataset)
    (hd : getCol d "popularity" = some (Column.numeric vs)) :
    (3 ≤ (presentVals vs).dedup.length → qcutFails (presentVals vs) = true →
      getCol (createFeatures d) "popularity_category" = getCol d "popularity_category") ∧
    ((presentVals vs).dedup.length < 3 → presentVals vs ≠ [] →
      getCol (createFeatures d) "popularity_category"
        = some (Column.categorical (vs.map (fun x =>
            x.bind (cutBand3 (listMin (presentVals vs)) (listMax (presentVals vs))))))) := by
  have hd2 : getCol (deriveDuration d) "popularity" = some (Column.numeric vs) := by
    rw [getCol_deriveDuration_ne _ _ (by decide)]; exact hd
  constructor
  · intro h3 hf
    have hpc : popularityCategory vs = none := by
      unfold popularityCategory
      rw [if_pos h3, if_pos hf]
    unfold createFeatures
    rw [getCol_deriveEnergy_ne _ _ (by decide), getCol_deriveDanceability_ne _ _ (by decide)]
    unfold derivePopularity
    rw [hd2]
    show getCol (popularityFeature (deriveDuration d) vs) "popularity_category" = _
    unfold popularityFeature
    rw [hpc]
    show getCol (deriveDuration d) "popularity_category" = _
    exact getCol_deriveDuration_ne _ _ (by decide)
  · intro h3 hne
    have hpc : popularityCategory vs = some (vs.map (fun x =>
        x.bind (cutBand3 (listMin (presentVals vs)) (listMax (presentVals vs))))) := by
      unfold popularityCategory
      rw [if_neg (not_le.mpr h3), if_neg (fun h => hne (by simpa using h))]
    unfold createFeatures
    rw [getCol_deriveEnergy_ne _ _ (by decide), getCol_deriveDanceability_ne _ _ (by decide)]
    unfold derivePopularity
    rw [hd2]
    show getCol (popularityFeature (deriveDuration d) vs) "popularity_category" = _
    unfold popularityFeature
    rw [hpc]
    exact getCol_setCol_self _ _ _

/-- C2 witness: the equal-width fallback branch on a concrete column with two
distinct values. -/
theorem popularity_band_fallback_witness :
    getCol (createFeatures [("popularity", Column.numeric [some 1, some 1, some 2])])
        "popularity_category"
      = some (Column.categorical ([some 1, some 1, some 2].map (fun x =>
          x.bind (cutBand3 (listMin (presentVals [some 1, some 1, some 2]))
            (listMax (presentVals [some 1, some 1, some 2])))))) :=
  (popularity_band_fallback [some 1, some 1, some 2]
      [("popularity", Column.numeric [some 1, some 1, some 2])]
      (by with_unfolding_all decide)).2
    (by with_unfolding_all decide) (by with_unfolding_all decide)

/-- A non-empty sorted list has a (present) median. -/
theorem medianOfSorted_isSome (s : List ℚ) (h : s ≠ []) :
    (medianOfSorted s).isSome = true := by
  have hn : s.length ≠ 0 := by simpa [List.length_eq_zero] using h
  have hpos : 0 < s.length := Nat.pos_of_ne_zero hn
  unfold medianOfSorted
  rw [if_neg hn]
  by_cases hodd : s.length % 2 = 1
  · rw [if_pos hodd]
    have hlt : s.length / 2 < s.length := Nat.div_lt_self hpos one_lt_two
    rw [List.get?_eq_get hlt]
    rfl
  · rw [if_neg hodd]
    have h2 : s.length / 2 < s.length := Nat.div_lt_self hpos one_lt_two
    have h1 : s.length / 2 - 1 < s.length := lt_of_le_of_lt (Nat.sub_le _ _) h2
    rw [List.get?_eq_get h1, List.get?_eq_get h2]
    rfl

/-- A column with at least one present value has a present median. -/
theorem median_isSome (xs : List ℚ) (h : xs ≠ []) : (median xs).isSome = true := by
  unfold median
  apply medianOfSorted_isSome
  intro hnil
  apply h
  have hlen := List.length_insertionSort (· ≤ ·) xs
  rw [hnil] at hlen
  exact List.length_eq_zero.mp hlen.symm

theorem countAbsent_eq_zero_iff (c : Column) :
    countAbsent c = 0 ↔ hasAbsent c = false := by
  cases c <;> simp [countAbsent, hasAbsent, List.countP_eq_zero, List.any_eq_false]

/-- Columns outside `missing` (no absent cell) are left untouched. -/
theorem resolveColumn_untouched (c : Column) (h : countAbsent c = 0) :
    resolveColumn c = c := by
  unfold resolveColumn
  rw [if_pos h]

/-- A touched numeric column is filled with its median over present values. -/
theorem resolveColumn_numeric_fill (vs : List (Option ℚ)) (m : ℚ)
    (h0 : countAbsent (Column.numeric vs) ≠ 0) (hm : median (presentVals vs) = some m) :
    resolveColumn (Column.numeric vs) = Column.numeric (vs.map (fun x => some (x.getD m))) := by
  unfold resolveColumn
  rw [if_neg h0]
  show Column.numeric (fillNumeric vs) = _
  unfold fillNumeric
  rw [hm]

theorem resolveColumn_numeric_noAbsent (vs : List (Option ℚ))
    (h : presentVals vs ≠ []) :
    hasAbsent (resolveColumn (Column.numeric vs)) = false := by
  by_cases h0 : countAbsent (Column.numeric vs) = 0
  · rw [resolveColumn_untouched _ h0]
    exact (countAbsent_eq_zero_iff _).mp h0
  · obtain ⟨m, hm⟩ := Option.isSome_iff_exists.mp (median_isSome _ h)
    rw [resolveColumn_numeric_fill vs m h0 hm]
    simp [hasAbsent, List.any_map, Function.comp]

theorem resolveColumn_categorical_noAbsent (vs : List (Option String)) :
    hasAbsent (resolveColumn (Column.categorical vs)) = false := by
  by_cases h0 : countAbsent (Column.categorical vs) = 0
  · rw [resolveColumn_untouched _ h0]
    exact (countAbsent_eq_zero_iff _).mp h0
  · unfold resolveColumn
    rw [if_neg h0]
    show hasAbsent (Column.categorical (vs.map (fun x => some (x.getD "Unknown")))) = false
    simp [hasAbsent, List.any_map, Function.comp]

theorem resolveColumn_idem (c : Column) :
    resolveColumn (resolveColumn c) = resolveColumn c := by
  by_cases h0 : countAbsent c = 0
  · rw [resolveColumn_untouched _ h0, resolveColumn_untouched _ h0]
  · cases c with
    | numeric vs =>
      cases hm : median (presentVals vs) with
      | some m =>
        rw [resolveColumn_numeric_fill vs m h0 hm]
        apply resolveColumn_untouched
        simp [countAbsent, List.countP_map, Function.comp]
      | none =>
        have hfill : resolveColumn (Column.numeric vs) = Column.numeric vs := by
          unfold resolveColumn
          rw [if_neg h0]
          show Column.numeric (fillNumeric vs) = _
          unfold fillNumeric
          rw [hm]
        rw [hfill, hfill]
    | categorical vs =>
      have hc : resolveColumn (Column.categorical vs)
          = Column.categorical (vs.map (fun x => some (x.getD "Unknown"))) := by
        unfold resolveColumn
        rw [if_neg h0]
      rw [hc]
      apply resolveColumn_untouched
      simp [countAbsent, List.countP_map, Function.comp]

theorem handleMissing_idem (d : Dataset) :
    handleMissing (handleMissing d) = handleMissing d := by
  unfold handleMissing
  rw [List.map_map]
  congr 1
  funext p
  simp [Function.comp, resolveColumn_idem]

/-- C5 (counterexample): a numeric column whose cells are all absent has a
`NaN` median, `fillna(NaN)` is a no-op, and the column still contains an
absent value after the resolver runs. -/
theorem missing_value_resolution_cex :
    handleMissing [("x", Column.numeric [none])] = [("x", Column.numeric [none])] ∧
    hasAbsent (Column.numeric [none]) = true := by
  exact ⟨by with_unfolding_all decide, by decide⟩

/-- C5 (amended): after the resolver, no numeric column with at least one
present value and no categorical column contains an absent value; touched
numeric columns are filled with the median over their present values; columns
with zero absent cells are untouched; and the pass is idempotent. -/
theorem missing_value_resolution :
    (∀ vs : List (Option ℚ), presentVals vs ≠ [] →
      hasAbsent (resolveColumn (Column.numeric vs)) = false) ∧
    (∀ vs : List (Option String),
      hasAbsent (resolveColumn (Column.categorical vs)) = false) ∧
    (∀ (vs : List (Option ℚ)) (m : ℚ), countAbsent (Column.numeric vs) ≠ 0 →
      median (presentVals vs) = some m →
      resolveColumn (Column.numeric vs)
        = Column.numeric (vs.map (fun x => some (x.getD m)))) ∧
    (∀ c : Column, countAbsent c = 0 → resolveColumn c = c) ∧
    (∀ d : Dataset, handleMissing (handleMissing d) = handleMissing d) :=
  ⟨resolveColumn_numeric_noAbsent, resolveColumn_categorical_noAbsent,
    resolveColumn_numeric_fill, resolveColumn_untouched, handleMissing_idem⟩

/-- C5 witness: the resolver evaluated on concrete columns with absent cells,
and idempotence on a concrete dataframe. -/
theorem missing_value_resolution_witness :
    hasAbsent (resolveColumn (Column.numeric [some 1, none])) = false ∧
    hasAbsent (resolveColumn (Column.categorical [none])) = false ∧
    handleMissing (handleMissing [("genre", Column.categorical [none, some "pop"])])
      = handleMissing [("genre", Column.categorical [none, some "pop"])] :=
  ⟨missing_value_resolution.1 [some 1, none] (by with_unfolding_all decide),
    missing_value_resolution.2.1 [none],
    missing_value_resolution.2.2.2.2 [("genre", Column.categorical [none, some "pop"])]⟩

/-- C4: with both columns present and at least 3 rows, the correlation
verdict is accepted iff the Pearson p-value is strictly below 0.05 and the
coefficient is strictly positive; it is rejected when `p < 0.05` with a
non-positive coefficient, and when `p ≥ 0.05` — for every function
`pearson` standing in for `scipy.stats.pearsonr`. -/
theorem correlation_decision (pearson : List ℚ → List ℚ → ℚ × ℚ)
    (dance energy : List ℚ) (h : 3 ≤ dance.length) :
    (testCorrelation pearson dance energy
        = TestOutcome.evaluated (pearson dance energy).1 (pearson dance energy).2
            Verdict.accepted
      ↔ (pearson dance energy).2 < 5/100 ∧ 0 < (pearson dance energy).1) ∧
    ((pearson dance energy).2 < 5/100 → (pearson dance energy).1 ≤ 0 →
      testCorrelation pearson dance energy
        = TestOutcome.evaluated (pearson dance energy).1 (pearson dance energy).2
            Verdict.rejected) ∧
    (5/100 ≤ (pearson dance energy).2 →
      testCorrelation pearson dance energy
        = TestOutcome.evaluated (pearson dance energy).1 (pearson dance energy).2
            Verdict.rejected) := by
  unfold testCorrelation
  rw [if_pos h]
  by_cases hp : (pearson dance energy).2 < 5/100
  · by_cases hr : 0 < (pearson dance energy).1
    · rw [if_pos hp, if_pos hr]
      exact ⟨⟨fun _ => ⟨hp, hr⟩, fun _ => rfl⟩,
        fun _ hle => absurd hr (not_lt.mpr hle),
        fun hge => absurd hp (not_lt.mpr hge)⟩
    · rw [if_pos hp, if_neg hr]
      refine ⟨⟨fun he => ?_, fun hc => absurd hc.2 hr⟩,
        fun _ _ => rfl, fun hge => absurd hp (not_lt.mpr hge)⟩
      simp at he
  · rw [if_neg hp]
    refine ⟨⟨fun he => ?_, fun hc => absurd hc.1 hp⟩,
      fun hp2 _ => absurd hp2 hp, fun _ => rfl⟩
    simp at he

/-- C4 witness: the decision applied to a concrete accepted instance. -/
theorem correlation_decision_witness :
    testCorrelation (fun _ _ => ((1 : ℚ)/2, (1 : ℚ)/100)) [1, 2, 3] [4, 5, 6]
      = TestOutcome.evaluated (1/2) (1/100) Verdict.accepted :=
  (correlation_decision (fun _ _ => ((1 : ℚ)/2, (1 : ℚ)/100)) [1, 2, 3] [4, 5, 6]
      (by decide)).1.mpr ⟨by norm_num, by norm_num⟩

/-- C6: the normality test uses the full popularity column when the row count
is at most 5000 and a deterministic fixed-seed (`random_state=42`) sample of
exactly 5000 rows otherwise, and accepts iff the goodness-of-fit p-value
exceeds 0.05 — for every deterministic `sampler` and `kstestNorm` standing in
for the pandas sampler and the standardise-then-KS-test composite. Being a
pure function of the dataset, the verdict is identical across repeated runs. -/
theorem normality_decision (sampler : Nat → List ℚ → List ℚ)
    (kstestNorm : List ℚ → ℚ × ℚ) (pop : List ℚ)
    (hs : ∀ xs : List ℚ, 5000 < xs.length → (sampler 42 xs).length = 5000) :
    (pop.length ≤ 5000 → normalitySample sampler pop = pop) ∧
    (5000 < pop.length → (normalitySample sampler pop).length = 5000) ∧
    (testNormality sampler kstestNorm pop
        = TestOutcome.evaluated (kstestNorm (normalitySample sampler pop)).1
            (kstestNorm (normalitySample sampler pop)).2 Verdict.accepted
      ↔ 5/100 < (kstestNorm (normalitySample sampler pop)).2) := by
  refine ⟨?_, ?_, ?_⟩
  · intro hle
    unfold normalitySample
    rw [if_neg (not_lt.mpr hle)]
  · intro hgt
    unfold normalitySample
    rw [if_pos hgt]
    exact hs pop hgt
  · unfold testNormality
    by_cases hp : 5/100 < (kstestNorm (normalitySample sampler pop)).2
    · rw [if_pos hp]
      exact ⟨fun _ => hp, fun _ => rfl⟩
    · rw [if_neg hp]
      refine ⟨fun he => ?_, fun hp2 => absurd hp2 hp⟩
      simp at he

/-- C6 witness: a small column is used whole, and a p-value above 0.05 yields
acceptance. -/
theorem normality_decision_witness :
    normalitySample (fun _ xs => xs.take 5000) [1, 2, 3] = [1, 2, 3] ∧
    testNormality (fun _ xs => xs.take 5000) (fun _ => ((0 : ℚ), (1 : ℚ)/10)) [1, 2, 3]
      = TestOutcome.evaluated 0 (1/10) Verdict.accepted := by
  have h := normality_decision (fun _ xs => xs.take 5000) (fun _ => ((0 : ℚ), (1 : ℚ)/10))
    [1, 2, 3] (fun xs hx => by rw [List.length_take]; exact Nat.min_eq_left (Nat.le_of_lt hx))
  exact ⟨h.1 (by norm_num), h.2.2.mpr (by norm_num)⟩

/-! ### Ordering facts for the count-descending and mean-descending sorts -/

instance : IsTotal (String × Nat) (fun a b => b.2 ≤ a.2) :=
  ⟨fun a b => le_total b.2 a.2⟩

instance : IsTrans (String × Nat) (fun a b => b.2 ≤ a.2) :=
  ⟨fun _ _ _ h1 h2 => le_trans h2 h1⟩

instance : IsTotal (String × GroupSummary) (fun a b => b.2.mean ≤ a.2.mean) :=
  ⟨fun a b => le_total b.2.mean a.2.mean⟩

instance : IsTrans (String × GroupSummary) (fun a b => b.2.mean ≤ a.2.mean) :=
  ⟨fun _ _ _ h1 h2 => le_trans h2 h1⟩

/-- Every entry of `value_counts` pairs a genre of the data with its exact
occurrence count. -/
theorem mem_valueCounts (rows : List GenreRow) (p : String × Nat)
    (hp : p ∈ valueCounts rows) :
    p.2 = (genreColumn rows).count p.1 ∧ p.1 ∈ genreColumn rows := by
  unfold valueCounts at hp
  have hp2 := (List.perm_insertionSort _ _).mem_iff.mp hp
  obtain ⟨g, hg, rfl⟩ := List.mem_map.mp hp2
  exact ⟨rfl, List.mem_dedup.mp hg⟩

/-- Conversely, every genre of the data appears in `value_counts` with its
count. -/
theorem valueCounts_mem (rows : List GenreRow) (g : String)
    (hg : g ∈ genreColumn rows) :
    (g, (genreColumn rows).count g) ∈ valueCounts rows := by
  unfold valueCounts
  rw [(List.perm_insertionSort _ _).mem_iff]
  exact List.mem_map.mpr ⟨g, List.mem_dedup.mpr hg, rfl⟩

/-- `value_counts` is sorted by occurrence count, descending. -/
theorem valueCounts_sorted (rows : List GenreRow) :
    List.Sorted (fun a b : String × Nat => b.2 ≤ a.2) (valueCounts rows) :=
  List.sorted_insertionSort _ _

/-- Every surviving genre has at least 10 observations. -/
theorem validGenres_count (rows : List GenreRow) (g : String)
    (hg : g ∈ validGenres rows) : 10 ≤ (genreColumn rows).count g := by
  unfold validGenres at hg
  have hg2 : g ∈ ((valueCounts rows).filter (fun p => 10 ≤ p.2)).map Prod.fst :=
    List.Sublist.mem hg (List.take_sublist _ _)
  obtain ⟨p, hpF, rfl⟩ := List.mem_map.mp hg2
  have hp := List.mem_filter.mp hpF
  have h2 : 10 ≤ p.2 := by simpa using hp.2
  have hcount := (mem_valueCounts rows p hp.1).1
  rw [← hcount]
  exact h2

/-- At most 5 genres survive the filter. -/
theorem validGenres_length_le (rows : List GenreRow) :
    (validGenres rows).length ≤ 5 := by
  unfold validGenres
  rw [List.length_take]
  exact min_le_left _ _

/-- The survivors are the most frequent eligible genres: an eligible genre
left out never has a strictly larger count than a surviving one. -/
theorem validGenres_top (rows : List GenreRow) (g : String)
    (hg : g ∈ validGenres rows) (g' : String) (hg' : g' ∈ genreColumn rows)
    (h10 : 10 ≤ (genreColumn rows).count g') (hnot : g' ∉ validGenres rows) :
    (genreColumn rows).count g' ≤ (genreColumn rows).count g := by
  have hsortF : List.Pairwise (fun a b : String × Nat => b.2 ≤ a.2)
      ((valueCounts rows).filter (fun p => 10 ≤ p.2)) :=
    List.Pairwise.sublist (List.filter_sublist _) (valueCounts_sorted rows)
  unfold validGenres at hg hnot
  rw [← List.map_take] at hg hnot
  obtain ⟨pg, hpgT, hpg1⟩ := List.mem_map.mp hg
  have hgF : (g', (genreColumn rows).count g')
      ∈ (valueCounts rows).filter (fun p => 10 ≤ p.2) :=
    List.mem_filter.mpr ⟨valueCounts_mem rows g' hg', by simpa using h10⟩
  have hnotT : (g', (genreColumn rows).count g')
      ∉ ((valueCounts rows).filter (fun p => 10 ≤ p.2)).take 5 := by
    intro hmem
    exact hnot (List.mem_map.mpr ⟨_, hmem, rfl⟩)
  have hsplitmem : (g', (genreColumn rows).count g')
      ∈ ((valueCounts rows).filter (fun p => 10 ≤ p.2)).take 5
        ++ ((valueCounts rows).filter (fun p => 10 ≤ p.2)).drop 5 := by
    rw [List.take_append_drop]
    exact hgF
  have hdrop : (g', (genreColumn rows).count g')
      ∈ ((valueCounts rows).filter (fun p => 10 ≤ p.2)).drop 5 := by
    rcases List.mem_append.mp hsplitmem with h | h
    · exact absurd h hnotT
    · exact h
  have hsplit : List.Pairwise (fun a b : String × Nat => b.2 ≤ a.2)
      (((valueCounts rows).filter (fun p => 10 ≤ p.2)).take 5
        ++ ((valueCounts rows).filter (fun p => 10 ≤ p.2)).drop 5) := by
    rw [List.take_append_drop]
    exact hsortF
  have hrel := (List.pairwise_append.mp hsplit).2.2 pg hpgT _ hdrop
  have hpg2 : pg.2 = (genreColumn rows).count pg.1 :=
    (mem_valueCounts rows pg
      (List.mem_filter.mp (List.Sublist.mem hpgT (List.take_sublist _ _))).1).1
  rw [hpg1] at hpg2
  calc (genreColumn rows).count g' ≤ pg.2 := hrel
    _ = (genreColumn rows).count g := hpg2

/-- C3: the group-mean test compares exactly the genres with at least 10
observations, capped at the 5 most frequent such genres, and is skipped with
a narrative (never evaluated) whenever fewer than 2 genres survive — for
every function `anova` standing in for `scipy.stats.f_oneway`. -/
theorem group_mean_test_filter (anova : List (List ℚ) → ℚ × ℚ)
    (rows : List GenreRow) (h2 : 2 ≤ (genreColumn rows).dedup.length) :
    (∀ g ∈ validGenres rows, 10 ≤ (genreColumn rows).count g) ∧
    (validGenres rows).length ≤ 5 ∧
    (∀ g ∈ validGenres rows, ∀ g' ∈ genreColumn rows,
      10 ≤ (genreColumn rows).count g' → g' ∉ validGenres rows →
      (genreColumn rows).count g' ≤ (genreColumn rows).count g) ∧
    ((validGenres rows).length < 2 →
      testGroupMeans anova rows
        = GroupTestOutcome.skipped "⚠️ Недостаточно жанров с данными для анализа") ∧
    (2 ≤ (validGenres rows).length →
      testGroupMeans anova rows
        = GroupTestOutcome.evaluated (validGenres rows) (anova (genreGroups rows)).1
            (anova (genreGroups rows)).2
            (decide ((anova (genreGroups rows)).2 < 5/100))
            (if (anova (genreGroups rows)).2 < 5/100
              then some (performPosthocAnalysis rows (validGenres rows)) else none)) := by
  refine ⟨fun g hg => validGenres_count rows g hg, validGenres_length_le rows,
    fun g hg g' hg' h10 hnot => validGenres_top rows g hg g' hg' h10 hnot, ?_, ?_⟩
  · intro hlt
    unfold testGroupMeans
    rw [if_pos h2, if_neg (not_le.mpr hlt)]
  · intro hge
    unfold testGroupMeans
    rw [if_pos h2, if_pos hge]
    by_cases hp : (anova (genreGroups rows)).2 < 5/100
    · rw [if_pos hp, if_pos hp]
      simp [hp]
    · rw [if_neg hp, if_neg hp]
      simp [hp]

/-- C3 witness: two genres with exactly 10 observations each survive and the
test is evaluated on exactly those two. -/
theorem group_mean_test_filter_witness :
    testGroupMeans (fun _ => ((1 : ℚ), (1 : ℚ)/100))
        (List.replicate 10 ("a", (50 : ℚ)) ++ List.replicate 10 ("b", (60 : ℚ)))
      = GroupTestOutcome.evaluated
          (validGenres (List.replicate 10 ("a", (50 : ℚ)) ++ List.replicate 10 ("b", (60 : ℚ))))
          1 (1/100) (decide ((1 : ℚ)/100 < 5/100))
          (if (1 : ℚ)/100 < 5/100
            then some (performPosthocAnalysis
              (List.replicate 10 ("a", (50 : ℚ)) ++ List.replicate 10 ("b", (60 : ℚ)))
              (validGenres (List.replicate 10 ("a", (50 : ℚ))
                ++ List.replicate 10 ("b", (60 : ℚ)))))
            else none) :=
  (group_mean_test_filter (fun _ => ((1 : ℚ), (1 : ℚ)/100))
      (List.replicate 10 ("a", (50 : ℚ)) ++ List.replicate 10 ("b", (60 : ℚ)))
      (by with_unfolding_all decide)).2.2.2.2 (by with_unfolding_all decide)

/-- C7 (counterexample): with two surviving genres of equal mean popularity
(both 50), the post-hoc report the code produces is not ordered by *strictly*
descending mean — the two means are equal. -/
theorem posthoc_strict_order_cex :
    testGroupMeans (fun _ => ((1 : ℚ), (1 : ℚ)/100))
        (List.replicate 10 ("a", (50 : ℚ)) ++ List.replicate 10 ("b", (50 : ℚ)))
      = GroupTestOutcome.evaluated ["a", "b"] 1 (1/100) true
          (some [("a", ⟨50, some 0, 10⟩), ("b", ⟨50, some 0, 10⟩)]) ∧
    ¬ List.Pairwise (fun x y : String × GroupSummary => y.2.mean < x.2.mean)
        [("a", (⟨50, some 0, 10⟩ : GroupSummary)), ("b", ⟨50, some 0, 10⟩)] := by
  constructor
  · with_unfolding_all decide
  · intro hp
    have h := (List.pairwise_cons.mp hp).1 ("b", ⟨50, some 0, 10⟩) (by simp)
    exact absurd h (by norm_num)

/-- C7 (amended): the post-hoc comparator is invoked iff the group-mean
p-value is below 0.05; it produces one `{mean, std, count}` summary per given
genre and reports them ordered by non-increasing (weakly descending) mean. -/
theorem posthoc_ranking (anova : List (List ℚ) → ℚ × ℚ) (rows : List GenreRow) :
    (∀ gs f p acc ph, testGroupMeans anova rows
        = GroupTestOutcome.evaluated gs f p acc ph →
      (ph.isSome = true ↔ p < 5/100)) ∧
    (∀ genres : List String,
      (performPosthocAnalysis rows genres).Perm
        (genres.map (fun g => (g, groupSummary (genreGroup rows g))))) ∧
    (∀ genres : List String,
      List.Sorted (fun a b : String × GroupSummary => b.2.mean ≤ a.2.mean)
        (performPosthocAnalysis rows genres)) ∧
    (∀ (genres : List String) (g : String), g ∈ genres →
      (g, groupSummary (genreGroup rows g)) ∈ performPosthocAnalysis rows genres) := by
  refine ⟨?_, ?_, ?_, ?_⟩
  · intro gs f p acc ph he
    unfold testGroupMeans at he
    by_cases h2 : 2 ≤ (genreColumn rows).dedup.length
    · rw [if_pos h2] at he
      by_cases hv : 2 ≤ (validGenres rows).length
      · rw [if_pos hv] at he
        by_cases hp : (anova (genreGroups rows)).2 < 5/100
        · rw [if_pos hp] at he
          injection he with e1 e2 e3 e4 e5
          subst e3
          subst e5
          simp [hp]
        · rw [if_neg hp] at he
          injection he with e1 e2 e3 e4 e5
          subst e3
          subst e5
          simp [hp]
      · rw [if_neg hv] at he
        exact GroupTestOutcome.noConfusion he
    · rw [if_neg h2] at he
      exact GroupTestOutcome.noConfusion he
  · intro genres
    exact List.perm_insertionSort _ _
  · intro genres
    exact List.sorted_insertionSort _ _
  · intro genres g hg
    unfold performPosthocAnalysis
    rw [(List.perm_insertionSort _ _).mem_iff]
    exact List.mem_map.mpr ⟨g, hg, rfl⟩

/-- C7 witness: invocation iff `p < 0.05` and per-genre summaries, on a
concrete two-genre dataset. -/
theorem posthoc_ranking_witness :
    ((some (performPosthocAnalysis
        (List.replicate 10 ("a", (50 : ℚ)) ++ List.replicate 10 ("b", (60 : ℚ)))
        (validGenres (List.replicate 10 ("a", (50 : ℚ))
          ++ List.replicate 10 ("b", (60 : ℚ)))))).isSome = true
      ↔ (1 : ℚ)/100 < 5/100) ∧
    ("a", groupSummary (genreGroup
        (List.replicate 10 ("a", (50 : ℚ)) ++ List.replicate 10 ("b", (60 : ℚ))) "a"))
      ∈ performPosthocAnalysis
        (List.replicate 10 ("a", (50 : ℚ)) ++ List.replicate 10 ("b", (60 : ℚ)))
        ["a", "b"] :=
  ⟨(posthoc_ranking (fun _ => ((1 : ℚ), (1 : ℚ)/100))
        (List.replicate 10 ("a", (50 : ℚ)) ++ List.replicate 10 ("b", (60 : ℚ)))).1
      (validGenres (List.replicate 10 ("a", (50 : ℚ)) ++ List.replicate 10 ("b", (60 : ℚ))))
      1 (1/100) (decide ((1 : ℚ)/100 < 5/100))
      (some (performPosthocAnalysis
        (List.replicate 10 ("a", (50 : ℚ)) ++ List.replicate 10 ("b", (60 : ℚ)))
        (validGenres (List.replicate 10 ("a", (50 : ℚ))
          ++ List.replicate 10 ("b", (60 : ℚ))))))
      (by with_unfolding_all decide),
    (posthoc_ranking (fun _ => ((1 : ℚ), (1 : ℚ)/100))
        (List.replicate 10 ("a", (50 : ℚ)) ++ List.replicate 10 ("b", (60 : ℚ)))).2.2.2
      ["a", "b"] "a" (by decide)⟩

end SpotifyDataAnalyzer
